import Mathlib

/-!
Shallow embedding of the blog-backend (Express + Mongoose) core:
the User / Blog / Comment data model, the like toggle, the comment and
blog virtuals, and the route handlers of `routes/auth.js`,
`routes/blogs.js` and the comments router, with Mongo ObjectIds as `Nat`
and document stores as lists of documents.
-/

namespace BlogBackend

/-- User document (schema fields per the README's Database Models section:
name, email, password hash, role). -/
structure User where
  id : Nat
  name : String
  email : String
  password : String
  role : String
deriving DecidableEq

/-- Blog document, from the blog schema: title, content, excerpt, author,
tags, featuredImage, status, views, likes, isPublished (plus the
createdAt timestamp used by the sort orders). -/
structure Blog where
  id : Nat
  title : String
  content : String
  excerpt : String
  author : Nat
  tags : List String
  featuredImage : String
  status : String
  views : Nat
  likes : List Nat
  isPublished : Bool
  createdAt : Nat
deriving DecidableEq

/-- Comment document, from src/models/Comment.js: content, author, blog,
parentComment (nullable), isEdited, editedAt, likes, isActive (plus the
createdAt timestamp used by the sort orders). -/
structure Comment where
  id : Nat
  content : String
  author : Nat
  blog : Nat
  parentComment : Option Nat
  isEdited : Bool
  editedAt : Option Nat
  likes : List Nat
  isActive : Bool
  createdAt : Nat
deriving DecidableEq

/-- The like toggle shared by `commentSchema.methods.toggleLike` and
`blogSchema.methods.toggleLike`:
`likeIndex = likes.indexOf(userId); if (likeIndex > -1) splice else push`. -/
def toggleLike (likes : List Nat) (userId : Nat) : List Nat :=
  let likeIndex := likes.indexOf userId
  if likeIndex < likes.length then likes.eraseIdx likeIndex
  else likes ++ [userId]

/-- Method `blogSchema.methods.incrementViews`: `this.views += 1` then save. -/
def incrementViews (b : Blog) : Blog :=
  { b with views := b.views + 1 }

/-- The pre-save middleware of src/models/Comment.js:
if content was modified and the document is not new, set
`isEdited = true` and stamp `editedAt`.  (Mongoose runs this on
`save`/`create`, not on `findByIdAndUpdate`.) -/
def commentPreSave (c : Comment) (contentModified isNew : Bool) (now : Nat) : Comment :=
  if contentModified && !isNew then { c with isEdited := true, editedAt := some now }
  else c

/-- The `likeCount` virtual of both schemas: a populate-count virtual with
`ref: User, localField: likes, foreignField: _id, count: true`, i.e. it
counts the User documents whose `_id` occurs in `likes`. -/
def likeCountVirtual (users : List User) (likes : List Nat) : Nat :=
  (users.filter (fun u => likes.contains u.id)).length

/-- Virtual `blogSchema.virtual('likeCount')`. -/
def blogLikeCount (users : List User) (b : Blog) : Nat :=
  likeCountVirtual users b.likes

/-- Virtual `commentSchema.virtual('likeCount')`. -/
def commentLikeCount (users : List User) (c : Comment) : Nat :=
  likeCountVirtual users c.likes

/-- Virtual `blogSchema.virtual('commentCount')`: counts Comment documents whose
`blog` field equals this blog's `_id` (no `isActive` and no
`parentComment` condition in the virtual's definition). -/
def commentCount (comments : List Comment) (blogId : Nat) : Nat :=
  (comments.filter (fun c => c.blog == blogId)).length

/-! Listing queries of the comments router.  Each handler filters with
`Comment.find(...)`, sorts on `createdAt`, then applies
`skip((page-1)*limit).limit(limit)`; the matching `countDocuments` uses
the same filter without pagination. -/

/-- Pagination `skip((page - 1) * limit).limit(limit)`. -/
def paginate {α : Type} (page limit : Nat) (l : List α) : List α :=
  (l.drop ((page - 1) * limit)).take limit

/-- Sort `.sort(\x7b createdAt: -1 \x7d)` (newest first). -/
def sortByCreatedDesc (l : List Comment) : List Comment :=
  l.mergeSort (fun a b => b.createdAt ≤ a.createdAt)

/-- Sort `.sort(\x7b createdAt: 1 \x7d)` (oldest first). -/
def sortByCreatedAsc (l : List Comment) : List Comment :=
  l.mergeSort (fun a b => a.createdAt ≤ b.createdAt)

/-- Filter of GET /api/comments/:blogId and of
`Comment.getCommentsForBlog`: `blog = blogId, isActive: true,
parentComment: null`. -/
def topLevelPred (blogId : Nat) (c : Comment) : Bool :=
  c.blog == blogId && c.isActive && c.parentComment == none

/-- GET /api/comments/:blogId — paginated top-level comment listing. -/
def listTopLevel (db : List Comment) (blogId page limit : Nat) : List Comment :=
  paginate page limit (sortByCreatedDesc (db.filter (topLevelPred blogId)))

/-- Total `countDocuments` of GET /api/comments/:blogId. -/
def totalTopLevel (db : List Comment) (blogId : Nat) : Nat :=
  (db.filter (topLevelPred blogId)).length

/-- Filter of GET /api/comments/:commentId/replies:
`parentComment = commentId, isActive: true`. -/
def repliesPred (commentId : Nat) (c : Comment) : Bool :=
  c.parentComment == some commentId && c.isActive

/-- GET /api/comments/:commentId/replies — paginated reply listing. -/
def listReplies (db : List Comment) (commentId page limit : Nat) : List Comment :=
  paginate page limit (sortByCreatedAsc (db.filter (repliesPred commentId)))

/-- Total `countDocuments` of GET /api/comments/:commentId/replies. -/
def totalReplies (db : List Comment) (commentId : Nat) : Nat :=
  (db.filter (repliesPred commentId)).length

/-- Filter of GET /api/comments/user/:userId:
`author = userId, isActive: true`. -/
def userCommentsPred (userId : Nat) (c : Comment) : Bool :=
  c.author == userId && c.isActive

/-- GET /api/comments/user/:userId — paginated per-user comment listing. -/
def listUserComments (db : List Comment) (userId page limit : Nat) : List Comment :=
  paginate page limit (sortByCreatedDesc (db.filter (userCommentsPred userId)))

/-- Total `countDocuments` of GET /api/comments/user/:userId. -/
def totalUserComments (db : List Comment) (userId : Nat) : Nat :=
  (db.filter (userCommentsPred userId)).length

/-- GET /api/comments/admin/all — `Comment.find()` with no filter at all,
sorted and paginated. -/
def listAdminAll (db : List Comment) (page limit : Nat) : List Comment :=
  paginate page limit (sortByCreatedDesc db)

/-- Total `countDocuments()` of GET /api/comments/admin/all (no filter). -/
def totalAdminAll (db : List Comment) : Nat :=
  db.length

/-! Mutating endpoints.  A request body is a record of the fields the
caller may supply; `findByIdAndUpdate(id, body)` `$set`s exactly the
supplied fields, and `Model.create(body)` fills schema defaults for the
missing ones.  `findById` is lookup by `_id` in the store. -/

/-- Outcome of a guarded mutating request (HTTP 200/201, 404, 403, 400). -/
inductive Outcome (α : Type) where
  | ok (a : α)
  | notFound
  | forbidden
  | badRequest
deriving DecidableEq

/-- Lookup `Model.findById(id)`. -/
def findComment (db : List Comment) (id : Nat) : Option Comment :=
  db.find? (fun c => c.id == id)

/-- Lookup `Model.findById(id)` on the blog store. -/
def findBlog (db : List Blog) (id : Nat) : Option Blog :=
  db.find? (fun b => b.id == id)

/-- Persist an updated comment document under its `_id`. -/
def storeComment (db : List Comment) (id : Nat) (c : Comment) : List Comment :=
  db.map (fun x => if x.id == id then c else x)

/-- Persist an updated blog document under its `_id`. -/
def storeBlog (db : List Blog) (id : Nat) (b : Blog) : List Blog :=
  db.map (fun x => if x.id == id then b else x)

/-- Modelled from the spec: the `checkOwnership` middleware
(middleware/auth.js) is not included under src/.  Per the spec's
Authorization Guard contract, the request is allowed iff
`principal.id == resource.author` or `principal.role == admin`. -/
def checkOwnership (p : User) (resourceAuthor : Nat) : Bool :=
  p.id == resourceAuthor || p.role == "admin"

/-- Caller-supplied body of a comment-creating request.  `content` is
required by the validator; everything else is optional and, where the
route does not overwrite it, passes straight into `Comment.create`. -/
structure CommentBody where
  content : String
  author : Option Nat := none
  blog : Option Nat := none
  parentComment : Option (Option Nat) := none
  isEdited : Option Bool := none
  editedAt : Option (Option Nat) := none
  likes : Option (List Nat) := none
  isActive : Option Bool := none
deriving DecidableEq

/-- Creation `Comment.create(body)`: schema defaults `parentComment = null`,
`isEdited = false`, `likes = []`, `isActive = true` fill the fields the
body leaves out (the routes always set `author` and `blog` before
calling create). -/
def commentFromBody (body : CommentBody) (newId now : Nat) : Comment :=
  { id := newId
    content := body.content
    author := body.author.getD 0
    blog := body.blog.getD 0
    parentComment := body.parentComment.getD none
    isEdited := body.isEdited.getD false
    editedAt := body.editedAt.getD none
    likes := body.likes.getD []
    isActive := body.isActive.getD true
    createdAt := now }

/-- POST /api/comments/:blogId — add a comment to a blog: 404 unless the
blog exists, then `body.author = req.user._id; body.blog = blogId;
Comment.create(body)`. -/
def addComment (blogs : List Blog) (db : List Comment) (principalId blogId : Nat)
    (body : CommentBody) (newId now : Nat) : Outcome Comment × List Comment :=
  match findBlog blogs blogId with
  | none => (.notFound, db)
  | some _ =>
      let c := commentFromBody
        { body with author := some principalId, blog := some blogId } newId now
      (.ok c, db ++ [c])

/-- POST /api/comments/:commentId/reply — 404 unless the parent comment
exists (`findById`, no `isActive` condition), then
`body.author = req.user._id; body.blog = parentComment.blog;
body.parentComment = commentId; Comment.create(body)`. -/
def replyToComment (db : List Comment) (principalId commentId : Nat)
    (body : CommentBody) (newId now : Nat) : Outcome Comment × List Comment :=
  match findComment db commentId with
  | none => (.notFound, db)
  | some parent =>
      let c := commentFromBody
        { body with author := some principalId, blog := some parent.blog,
                    parentComment := some (some commentId) } newId now
      (.ok c, db ++ [c])

/-- Caller-supplied body of PUT /api/comments/:id; every schema field may
appear and `findByIdAndUpdate` `$set`s exactly the ones that do. -/
structure CommentUpdateBody where
  content : Option String := none
  author : Option Nat := none
  blog : Option Nat := none
  parentComment : Option (Option Nat) := none
  isEdited : Option Bool := none
  editedAt : Option (Option Nat) := none
  likes : Option (List Nat) := none
  isActive : Option Bool := none
deriving DecidableEq

/-- Update `Comment.findByIdAndUpdate(id, body)` field semantics: supplied
fields overwrite, absent fields are kept.  Document middleware
(`pre('save')`) does not run on this path. -/
def applyCommentUpdate (c : Comment) (body : CommentUpdateBody) : Comment :=
  { c with
    content := body.content.getD c.content
    author := body.author.getD c.author
    blog := body.blog.getD c.blog
    parentComment := body.parentComment.getD c.parentComment
    isEdited := body.isEdited.getD c.isEdited
    editedAt := body.editedAt.getD c.editedAt
    likes := body.likes.getD c.likes
    isActive := body.isActive.getD c.isActive }

/-- PUT /api/comments/:id — `checkOwnership(Comment, 'id')` (404 when the
comment is missing, 403 unless owner or admin), then
`findByIdAndUpdate(id, body, \x7b new: true, runValidators: true \x7d)`. -/
def updateComment (db : List Comment) (p : User) (cid : Nat)
    (body : CommentUpdateBody) : Outcome Comment × List Comment :=
  match findComment db cid with
  | none => (.notFound, db)
  | some c =>
      if checkOwnership p c.author then
        let c' := applyCommentUpdate c body
        (.ok c', storeComment db cid c')
      else (.forbidden, db)

/-- DELETE /api/comments/:id — ownership gate, then soft delete:
`findByIdAndUpdate(id, \x7b isActive: false \x7d)`. -/
def deleteComment (db : List Comment) (p : User) (cid : Nat) :
    Outcome Unit × List Comment :=
  match findComment db cid with
  | none => (.notFound, db)
  | some c =>
      if checkOwnership p c.author then
        (.ok (), storeComment db cid { c with isActive := false })
      else (.forbidden, db)

/-- PUT /api/comments/:id/like — 404 unless the comment exists, then
`comment.toggleLike(req.user._id)` and save. -/
def likeComment (db : List Comment) (principalId cid : Nat) :
    Outcome Comment × List Comment :=
  match findComment db cid with
  | none => (.notFound, db)
  | some c =>
      let c' := { c with likes := toggleLike c.likes principalId }
      (.ok c', storeComment db cid c')

/-! Blog routes (src/routes/blogs.js). -/

/-- GET /api/blogs/:id — 404 unless the blog exists, then
`blog.incrementViews()` (views += 1, save) and return the blog. -/
def getBlog (db : List Blog) (bid : Nat) : Outcome Blog × List Blog :=
  match findBlog db bid with
  | none => (.notFound, db)
  | some b =>
      let b' := incrementViews b
      (.ok b', storeBlog db bid b')

/-- Iterated single-blog fetches (the state after `n` GET /api/blogs/:id
requests). -/
def fetchTimes : Nat → List Blog → Nat → List Blog
  | 0, db, _ => db
  | n + 1, db, bid => fetchTimes n (getBlog db bid).2 bid

/-- Caller-supplied body of POST /api/blogs; `title` and `content` are
required by the validator, the rest is optional. -/
structure BlogBody where
  title : String
  content : String
  excerpt : Option String := none
  tags : Option (List String) := none
  featuredImage : Option String := none
  status : Option String := none
  views : Option Nat := none
  likes : Option (List Nat) := none
  isPublished : Option Bool := none
  author : Option Nat := none
deriving DecidableEq

/-- Creation `Blog.create(body)` with the blog schema's defaults
(`excerpt = ''`, `featuredImage = ''`, `status = 'published'`,
`views = 0`, `likes = []`, `isPublished = true`). -/
def blogFromBody (body : BlogBody) (newId now : Nat) : Blog :=
  { id := newId
    title := body.title
    content := body.content
    excerpt := (body.excerpt.getD (""))
    author := body.author.getD 0
    tags := body.tags.getD []
    featuredImage := (body.featuredImage.getD (""))
    status := (body.status.getD ("published"))
    views := body.views.getD 0
    likes := body.likes.getD []
    isPublished := body.isPublished.getD true
    createdAt := now }

/-- POST /api/blogs — `body.author = req.user._id`; when the body has no
(truthy) excerpt and content is truthy, derive
`excerpt = content.substring(0, 200) + '...'`; then `Blog.create`. -/
def createBlog (db : List Blog) (principalId : Nat) (body : BlogBody)
    (newId now : Nat) : Outcome Blog × List Blog :=
  let body₁ := { body with author := some principalId }
  let body₂ :=
    if (body₁.excerpt.getD ("")) == "" && body₁.content != "" then
      { body₁ with excerpt := some (body₁.content.take 200 ++ ("...")) }
    else body₁
  let b := blogFromBody body₂ newId now
  (.ok b, db ++ [b])

/-- Caller-supplied body of PUT /api/blogs/:id; `findByIdAndUpdate`
`$set`s exactly the supplied fields. -/
structure BlogUpdateBody where
  title : Option String := none
  content : Option String := none
  excerpt : Option String := none
  tags : Option (List String) := none
  featuredImage : Option String := none
  status : Option String := none
  views : Option Nat := none
  likes : Option (List Nat) := none
  isPublished : Option Bool := none
  author : Option Nat := none
deriving DecidableEq

/-- Update `Blog.findByIdAndUpdate(id, body)` field semantics. -/
def applyBlogUpdate (b : Blog) (body : BlogUpdateBody) : Blog :=
  { b with
    title := body.title.getD b.title
    content := body.content.getD b.content
    excerpt := body.excerpt.getD b.excerpt
    author := body.author.getD b.author
    tags := body.tags.getD b.tags
    featuredImage := body.featuredImage.getD b.featuredImage
    status := body.status.getD b.status
    views := body.views.getD b.views
    likes := body.likes.getD b.likes
    isPublished := body.isPublished.getD b.isPublished }

/-- PUT /api/blogs/:id — `checkOwnership(Blog)` (404 / 403), then
re-derive the excerpt when the body updates content without a (truthy)
excerpt, then `findByIdAndUpdate(id, body)`. -/
def updateBlog (db : List Blog) (p : User) (bid : Nat)
    (body : BlogUpdateBody) : Outcome Blog × List Blog :=
  match findBlog db bid with
  | none => (.notFound, db)
  | some b =>
      if checkOwnership p b.author then
        let body' :=
          if (body.content.getD ("")) != "" && (body.excerpt.getD ("")) == "" then
            { body with excerpt := some ((body.content.getD ("")).take 200 ++ ("...")) }
          else body
        let b' := applyBlogUpdate b body'
        (.ok b', storeBlog db bid b')
      else (.forbidden, db)

/-- DELETE /api/blogs/:id — ownership gate, then `findByIdAndDelete`
(hard delete). -/
def deleteBlog (db : List Blog) (p : User) (bid : Nat) :
    Outcome Unit × List Blog :=
  match findBlog db bid with
  | none => (.notFound, db)
  | some b =>
      if checkOwnership p b.author then
        (.ok (), db.filter (fun x => !(x.id == bid)))
      else (.forbidden, db)

/-! Auth routes (src/routes/auth.js). -/

/-- Outcome of POST /api/auth/register. -/
inductive RegisterOutcome where
  | created (u : User)
  | duplicateEmail
deriving DecidableEq

/-- POST /api/auth/register — `User.findOne(\x7b email \x7d)`; 400
"User already exists with this email" when one exists, else
`User.create(\x7b name, email, password \x7d)` (role defaults to user). -/
def register (db : List User) (nm em pw : String) (freshId : Nat) :
    RegisterOutcome × List User :=
  match db.find? (fun u => u.email == em) with
  | some _ => (.duplicateEmail, db)
  | none =>
      let u : User := { id := freshId, name := nm, email := em,
                        password := pw, role := "user" }
      (.created u, db ++ [u])

/-! Supporting lemmas. -/

/-- The indexOf/splice/push body of `toggleLike` is: erase the first
occurrence when present, append otherwise. -/
theorem toggleLike_eq (l : List Nat) (u : Nat) :
    toggleLike l u = if u ∈ l then l.erase u else l ++ [u] := by
  unfold toggleLike
  by_cases h : u ∈ l
  · rw [if_pos h, if_pos (List.indexOf_lt_length.mpr h),
      List.eraseIdx_indexOf_eq_erase]
  · rw [if_neg h, if_neg (fun hc => h (List.indexOf_lt_length.mp hc))]

/-- The toggle keeps the like list duplicate-free, so the `likes` field of
every state reachable from creation (`likes = []`) through toggles is a
set. -/
theorem toggleLike_nodup (l : List Nat) (u : Nat) (hN : l.Nodup) :
    (toggleLike l u).Nodup := by
  rw [toggleLike_eq]
  by_cases h : u ∈ l
  · rw [if_pos h]; exact hN.erase u
  · rw [if_neg h]
    refine List.Nodup.append hN (List.nodup_singleton u) ?_
    intro x hx hxu
    rw [List.mem_singleton] at hxu
    exact h (hxu ▸ hx)

/-- The save path of a content edit: the pre-save hook stamps
`isEdited`/`editedAt` whenever content was modified on a non-new
document. -/
theorem commentPreSave_stamps (c : Comment) (now : Nat) :
    (commentPreSave c true false now).isEdited = true ∧
    (commentPreSave c true false now).editedAt = some now := by
  constructor <;> rfl

/-- C6: `toggleLike` removes the user from the like set when present and
adds the user otherwise, leaves every other user's membership unchanged,
and applying it twice with the same user restores the original like-set
(membership-level involution), for duplicate-free like lists. -/
theorem toggleLike_spec (l : List Nat) (u : Nat) (hN : l.Nodup) :
    (u ∈ l → u ∉ toggleLike l u) ∧
    (u ∉ l → u ∈ toggleLike l u) ∧
    (∀ x, x ≠ u → (x ∈ toggleLike l u ↔ x ∈ l)) ∧
    (∀ x, x ∈ toggleLike (toggleLike l u) u ↔ x ∈ l) := by
  rw [toggleLike_eq]
  by_cases h : u ∈ l
  · rw [if_pos h]
    have hu : u ∉ l.erase u := hN.not_mem_erase
    refine ⟨fun _ => hu, fun hc => absurd h hc, ?_, ?_⟩
    · exact fun x hx => List.mem_erase_of_ne hx
    · intro x
      rw [toggleLike_eq, if_neg hu]
      by_cases hx : x = u
      · subst hx; simp [h]
      · simp only [List.mem_append, List.mem_singleton, hx, or_false,
          List.mem_erase_of_ne hx]
  · rw [if_neg h]
    refine ⟨fun hc => absurd hc h, fun _ => by simp, ?_, ?_⟩
    · intro x hx
      simp only [List.mem_append, List.mem_singleton, hx, or_false]
    · intro x
      have hm : u ∈ l ++ [u] := by simp
      rw [toggleLike_eq, if_pos hm, List.erase_append_right _ h]
      simp

/-- Witness for `toggleLike_spec` at the like list `[1, 2]` and user 1. -/
theorem toggleLike_spec_witness :
    ([1, 2] : List Nat).Nodup ∧
    (∀ x, x ∈ toggleLike (toggleLike [1, 2] 1) 1 ↔ x ∈ ([1, 2] : List Nat)) :=
  ⟨by decide, (toggleLike_spec [1, 2] 1 (by decide)).2.2.2⟩

/-- C2: every successful reply creation produces a comment whose `blog`
equals the parent's `blog` and whose `parentComment` is the parent's id,
for every caller-supplied request body (any caller-supplied `blog` or
`parentComment` value is overridden), and the new comment is appended to
the store. -/
theorem reply_inherits_parent_blog (db db' : List Comment)
    (principalId commentId : Nat) (body : CommentBody) (newId now : Nat)
    (parent r : Comment)
    (hp : findComment db commentId = some parent)
    (hr : replyToComment db principalId commentId body newId now = (.ok r, db')) :
    r.blog = parent.blog ∧ r.parentComment = some commentId ∧
    r.author = principalId ∧ db' = db ++ [r] := by
  unfold replyToComment at hr
  rw [hp] at hr
  obtain ⟨h1, h2⟩ := Prod.mk.injEq .. ▸ hr
  cases h1
  exact ⟨rfl, rfl, rfl, h2.symm⟩

/-- Witness for `reply_inherits_parent_blog`: a reply to comment 5 (which
lives on blog 3) whose body tries to claim blog 9 and parent 8. -/
theorem reply_inherits_parent_blog_witness :
    (findComment
        [{ id := 5, content := "hi", author := 1, blog := 3, parentComment := none,
           isEdited := false, editedAt := none, likes := [], isActive := true,
           createdAt := 0 }] 5 =
      some { id := 5, content := "hi", author := 1, blog := 3, parentComment := none,
             isEdited := false, editedAt := none, likes := [], isActive := true,
             createdAt := 0 }) ∧
    ({ id := 6, content := "yo", author := 2, blog := 3,
       parentComment := some 5, isEdited := false, editedAt := none, likes := [],
       isActive := true, createdAt := 1 } : Comment).blog = 3 := by
  refine ⟨by decide, ?_⟩
  exact (reply_inherits_parent_blog
    [{ id := 5, content := "hi", author := 1, blog := 3, parentComment := none,
       isEdited := false, editedAt := none, likes := [], isActive := true,
       createdAt := 0 }]
    ([{ id := 5, content := "hi", author := 1, blog := 3, parentComment := none,
        isEdited := false, editedAt := none, likes := [], isActive := true,
        createdAt := 0 },
      { id := 6, content := "yo", author := 2, blog := 3,
        parentComment := some 5, isEdited := false, editedAt := none, likes := [],
        isActive := true, createdAt := 1 }])
    2 5 { content := "yo", blog := some 9, parentComment := some (some 8) } 6 1
    { id := 5, content := "hi", author := 1, blog := 3, parentComment := none,
      isEdited := false, editedAt := none, likes := [], isActive := true,
      createdAt := 0 }
    { id := 6, content := "yo", author := 2, blog := 3,
      parentComment := some 5, isEdited := false, editedAt := none, likes := [],
      isActive := true, createdAt := 1 }
    (by decide) (by decide)).1

/-- C10: the reply endpoint looks the parent up with `findById` and no
`isActive` condition, so a soft-deleted parent still accepts replies: the
request succeeds and creates a reply (active, when the body does not
supply `isActive`) pointing at the soft-deleted parent and its blog. -/
theorem reply_to_inactive_parent (db : List Comment)
    (principalId commentId : Nat) (body : CommentBody) (newId now : Nat)
    (parent : Comment)
    (hp : findComment db commentId = some parent)
    (_hinactive : parent.isActive = false)
    (hbody : body.isActive = none) :
    ∃ r, replyToComment db principalId commentId body newId now = (.ok r, db ++ [r]) ∧
      r.isActive = true ∧ r.parentComment = some commentId ∧
      r.blog = parent.blog := by
  unfold replyToComment
  rw [hp]
  exact ⟨_, rfl, by simp [commentFromBody, hbody], rfl, rfl⟩

/-- Witness for `reply_to_inactive_parent`: replying to the soft-deleted
comment 5. -/
theorem reply_to_inactive_parent_witness :
    (findComment
        [{ id := 5, content := "hi", author := 1, blog := 3, parentComment := none,
           isEdited := false, editedAt := none, likes := [], isActive := false,
           createdAt := 0 }] 5 =
      some { id := 5, content := "hi", author := 1, blog := 3, parentComment := none,
             isEdited := false, editedAt := none, likes := [], isActive := false,
             createdAt := 0 }) ∧
    (∃ r, replyToComment
        [{ id := 5, content := "hi", author := 1, blog := 3, parentComment := none,
           isEdited := false, editedAt := none, likes := [], isActive := false,
           createdAt := 0 }] 2 5 { content := "yo" } 6 1 =
        (.ok r,
         [{ id := 5, content := "hi", author := 1, blog := 3, parentComment := none,
            isEdited := false, editedAt := none, likes := [], isActive := false,
            createdAt := 0 }] ++ [r]) ∧
      r.isActive = true ∧ r.parentComment = some 5 ∧ r.blog = 3) :=
  ⟨by decide,
   reply_to_inactive_parent
    [{ id := 5, content := "hi", author := 1, blog := 3, parentComment := none,
       isEdited := false, editedAt := none, likes := [], isActive := false,
       createdAt := 0 }]
    2 5 { content := "yo" } 6 1
    { id := 5, content := "hi", author := 1, blog := 3, parentComment := none,
      isEdited := false, editedAt := none, likes := [], isActive := false,
      createdAt := 0 }
    (by decide) (by decide) (by decide)⟩

/-- C7: a second registration with an already-taken email fails with the
duplicate-email error and leaves the user store — in particular every
field of the first account — completely unchanged. -/
theorem register_duplicate (db : List User) (nm em pw : String)
    (freshId : Nat) (u : User) (hu : u ∈ db) (he : u.email = em) :
    (register db nm em pw freshId).1 = .duplicateEmail ∧
    (register db nm em pw freshId).2 = db := by
  have h1 : (db.find? (fun v => v.email == em)).isSome := by
    exact List.find?_isSome.mpr ⟨u, hu, by simp [he]⟩
  obtain ⟨v, hv⟩ := Option.isSome_iff_exists.mp h1
  simp [register, hv]

/-- Witness for `register_duplicate`: re-registering alice@x.com. -/
theorem register_duplicate_witness :
    ({ id := 1, name := "a", email := "alice@x.com", password := "h",
       role := "user" } : User) ∈
      [({ id := 1, name := "a", email := "alice@x.com", password := "h",
          role := "user" } : User)] ∧
    (register
        [({ id := 1, name := "a", email := "alice@x.com", password := "h",
            role := "user" } : User)]
        ("b") ("alice@x.com") ("pw2") 2).1 = .duplicateEmail :=
  ⟨by decide,
   (register_duplicate
      [({ id := 1, name := "a", email := "alice@x.com", password := "h",
          role := "user" } : User)]
      ("b") ("alice@x.com") ("pw2") 2
      { id := 1, name := "a", email := "alice@x.com", password := "h",
        role := "user" }
      (by decide) (by decide)).1⟩

/-- Lookup after a store-by-id: replacing the document stored under `bid`
with a document that carries id `bid` makes `findBlog` return the new
document. -/
theorem findBlog_storeBlog (db : List Blog) (bid : Nat) (b b' : Blog)
    (hfind : findBlog db bid = some b) (hid : b'.id = bid) :
    findBlog (storeBlog db bid b') bid = some b' := by
  induction db with
  | nil => simp [findBlog] at hfind
  | cons a t ih =>
      unfold findBlog storeBlog at *
      by_cases h : a.id = bid
      · have hb : (a.id == bid) = true := by simpa using h
        simp only [List.map_cons, hb, if_true]
        refine List.find?_cons_of_pos _ ?_
        show (b'.id == bid) = true
        simp [hid]
      · have hb : (a.id == bid) = false := by simpa using h
        simp only [List.map_cons, hb, if_false]
        rw [List.find?_cons_of_neg _ (by simpa using h)] at hfind ⊢
        exact ih hfind

/-- One GET /api/blogs/:id step: the response and the persisted document
both carry `views + 1`. -/
theorem getBlog_step (db : List Blog) (bid : Nat) (b : Blog)
    (hfind : findBlog db bid = some b) :
    (getBlog db bid).1 = .ok (incrementViews b) ∧
    findBlog (getBlog db bid).2 bid = some (incrementViews b) := by
  have hid : b.id = bid := by
    simpa using List.find?_some hfind
  unfold getBlog
  rw [hfind]
  exact ⟨rfl, findBlog_storeBlog db bid b (incrementViews b) hfind hid⟩

/-- Views after `n` successful fetches of the same blog. -/
theorem fetchTimes_views (n : Nat) (db : List Blog) (bid : Nat) (b : Blog)
    (hfind : findBlog db bid = some b) :
    findBlog (fetchTimes n db bid) bid = some { b with views := b.views + n } := by
  induction n generalizing db b with
  | zero => simpa using hfind
  | succ n ih =>
      show findBlog (fetchTimes n (getBlog db bid).2 bid) bid = _
      have h2 := (getBlog_step db bid b hfind).2
      have h3 := ih _ _ h2
      have h4 : b.views + (n + 1) = b.views + 1 + n := by omega
      rw [h4]
      simpa [incrementViews] using h3

/-- C8: a successful single-blog fetch returns the blog with `views`
incremented by exactly 1 and every other field unchanged, persists that
increment (the model takes no principal: the route has no auth
middleware, so the increment is caller-independent), leaves every other
blog unchanged, and five successive fetches increment `views` by exactly
5. -/
theorem view_increment_spec (db : List Blog) (bid : Nat) (b : Blog)
    (hfind : findBlog db bid = some b) :
    (getBlog db bid).1 = .ok { b with views := b.views + 1 } ∧
    findBlog (getBlog db bid).2 bid = some { b with views := b.views + 1 } ∧
    (∀ x ∈ db, x.id ≠ bid → x ∈ (getBlog db bid).2) ∧
    findBlog (fetchTimes 5 db bid) bid = some { b with views := b.views + 5 } := by
  obtain ⟨h1, h2⟩ := getBlog_step db bid b hfind
  refine ⟨h1, h2, ?_, fetchTimes_views 5 db bid b hfind⟩
  intro x hx hne
  unfold getBlog
  rw [hfind]
  show x ∈ storeBlog db bid (incrementViews b)
  unfold storeBlog
  exact List.mem_map.mpr ⟨x, hx, by simp [hne]⟩

/-- Witness for `view_increment_spec`: a one-blog store, fetched five
times. -/
theorem view_increment_spec_witness :
    (findBlog
        [{ id := 1, title := "t", content := "c", excerpt := "e", author := 1,
           tags := [], featuredImage := "", status := "published", views := 7,
           likes := [], isPublished := true, createdAt := 0 }] 1 =
      some { id := 1, title := "t", content := "c", excerpt := "e", author := 1,
             tags := [], featuredImage := "", status := "published", views := 7,
             likes := [], isPublished := true, createdAt := 0 }) ∧
    findBlog
        (fetchTimes 5
          [{ id := 1, title := "t", content := "c", excerpt := "e", author := 1,
             tags := [], featuredImage := "", status := "published", views := 7,
             likes := [], isPublished := true, createdAt := 0 }] 1) 1 =
      some { id := 1, title := "t", content := "c", excerpt := "e", author := 1,
             tags := [], featuredImage := "", status := "published", views := 12,
             likes := [], isPublished := true, createdAt := 0 } :=
  ⟨by decide,
   (view_increment_spec
      [{ id := 1, title := "t", content := "c", excerpt := "e", author := 1,
         tags := [], featuredImage := "", status := "published", views := 7,
         likes := [], isPublished := true, createdAt := 0 }] 1
      { id := 1, title := "t", content := "c", excerpt := "e", author := 1,
        tags := [], featuredImage := "", status := "published", views := 7,
        likes := [], isPublished := true, createdAt := 0 }
      (by decide)).2.2.2⟩

/-- C5: the ownership gate of the update and delete endpoints (modelled
from the spec, since middleware/auth.js is not under src/) allows a
request exactly when the principal is the resource's author or an admin,
and each of the four guarded endpoints answers Forbidden in exactly the
remaining role/ownership combinations. -/
theorem ownership_gate (dbc : List Comment) (dbb : List Blog) (p : User)
    (cid bid : Nat) (c : Comment) (b : Blog)
    (ubody : CommentUpdateBody) (bbody : BlogUpdateBody)
    (hc : findComment dbc cid = some c) (hb : findBlog dbb bid = some b) :
    (checkOwnership p c.author = true ↔ (p.id = c.author ∨ p.role = "admin")) ∧
    ((updateComment dbc p cid ubody).1 = .forbidden ↔
      ¬(p.id = c.author ∨ p.role = "admin")) ∧
    ((deleteComment dbc p cid).1 = .forbidden ↔
      ¬(p.id = c.author ∨ p.role = "admin")) ∧
    ((updateBlog dbb p bid bbody).1 = .forbidden ↔
      ¬(p.id = b.author ∨ p.role = "admin")) ∧
    ((deleteBlog dbb p bid).1 = .forbidden ↔
      ¬(p.id = b.author ∨ p.role = "admin")) := by
  have hiffc : checkOwnership p c.author = true ↔
      (p.id = c.author ∨ p.role = "admin") := by
    simp [checkOwnership]
  have hiffb : checkOwnership p b.author = true ↔
      (p.id = b.author ∨ p.role = "admin") := by
    simp [checkOwnership]
  refine ⟨hiffc, ?_, ?_, ?_, ?_⟩
  · unfold updateComment
    rw [hc]
    by_cases hco : checkOwnership p c.author = true
    · simp [hco, hiffc.mp hco]
    · have hnot : ¬(p.id = c.author ∨ p.role = "admin") :=
        fun hor => hco (hiffc.mpr hor)
      simp [hco, not_or.mp hnot]
  · unfold deleteComment
    rw [hc]
    by_cases hco : checkOwnership p c.author = true
    · simp [hco, hiffc.mp hco]
    · have hnot : ¬(p.id = c.author ∨ p.role = "admin") :=
        fun hor => hco (hiffc.mpr hor)
      simp [hco, not_or.mp hnot]
  · unfold updateBlog
    rw [hb]
    by_cases hco : checkOwnership p b.author = true
    · simp [hco, hiffb.mp hco]
    · have hnot : ¬(p.id = b.author ∨ p.role = "admin") :=
        fun hor => hco (hiffb.mpr hor)
      simp [hco, not_or.mp hnot]
  · unfold deleteBlog
    rw [hb]
    by_cases hco : checkOwnership p b.author = true
    · simp [hco, hiffb.mp hco]
    · have hnot : ¬(p.id = b.author ∨ p.role = "admin") :=
        fun hor => hco (hiffb.mpr hor)
      simp [hco, not_or.mp hnot]

/-- Witness for `ownership_gate`: a non-owner, non-admin principal is
refused the comment update. -/
theorem ownership_gate_witness :
    (findComment
        [{ id := 1, content := "hi", author := 1, blog := 1, parentComment := none,
           isEdited := false, editedAt := none, likes := [], isActive := true,
           createdAt := 0 }] 1 =
      some { id := 1, content := "hi", author := 1, blog := 1, parentComment := none,
             isEdited := false, editedAt := none, likes := [], isActive := true,
             createdAt := 0 }) ∧
    (findBlog
        [{ id := 1, title := "t", content := "c", excerpt := "e", author := 1,
           tags := [], featuredImage := "", status := "published", views := 0,
           likes := [], isPublished := true, createdAt := 0 }] 1 =
      some { id := 1, title := "t", content := "c", excerpt := "e", author := 1,
             tags := [], featuredImage := "", status := "published", views := 0,
             likes := [], isPublished := true, createdAt := 0 }) ∧
    ((updateComment
        [{ id := 1, content := "hi", author := 1, blog := 1, parentComment := none,
           isEdited := false, editedAt := none, likes := [], isActive := true,
           createdAt := 0 }]
        { id := 2, name := "m", email := "m@x", password := "h", role := "user" }
        1 {}).1 = .forbidden ↔
      ¬((2 : Nat) = 1 ∨ ("user" : String) = "admin")) :=
  ⟨by decide, by decide,
   (ownership_gate
      [{ id := 1, content := "hi", author := 1, blog := 1, parentComment := none,
         isEdited := false, editedAt := none, likes := [], isActive := true,
         createdAt := 0 }]
      [{ id := 1, title := "t", content := "c", excerpt := "e", author := 1,
         tags := [], featuredImage := "", status := "published", views := 0,
         likes := [], isPublished := true, createdAt := 0 }]
      { id := 2, name := "m", email := "m@x", password := "h", role := "user" }
      1 1
      { id := 1, content := "hi", author := 1, blog := 1, parentComment := none,
        isEdited := false, editedAt := none, likes := [], isActive := true,
        createdAt := 0 }
      { id := 1, title := "t", content := "c", excerpt := "e", author := 1,
        tags := [], featuredImage := "", status := "published", views := 0,
        likes := [], isPublished := true, createdAt := 0 }
      {} {} (by decide) (by decide)).2.1⟩

/-- C3 counterexample: the update endpoints pass the whole request body
to `findByIdAndUpdate`, so a body that carries an `author` field
overwrites the stored author — here the owner (author 1) updates comment
1 with `\x7b content: "hi2", author: 99 \x7d` (the body carries valid
non-empty content, so `validateComment` lets the request through to the
handler) and the stored author becomes 99. -/
theorem author_overwrite_cex :
    (updateComment
        [{ id := 1, content := "hi", author := 1, blog := 1, parentComment := none,
           isEdited := false, editedAt := none, likes := [], isActive := true,
           createdAt := 0 }]
        { id := 1, name := "a", email := "a@x", password := "h", role := "user" }
        1 { content := some ("hi2"), author := some 99 }).1 =
      .ok { id := 1, content := "hi2", author := 99, blog := 1, parentComment := none,
            isEdited := false, editedAt := none, likes := [], isActive := true,
            createdAt := 0 } ∧ (99 : Nat) ≠ 1 := by
  decide

/-- C3 (amended): every creation endpoint sets `author` to the
principal's id, overriding any caller-supplied value; and the update
endpoints preserve `author` for every request body that does not itself
carry an `author` field. -/
theorem author_set_and_preserved (blogs dbb dbb' : List Blog)
    (dbc dbc₂ dbc₃ dbc₄ : List Comment)
    (p : User) (principalId blogId cid bid newId now : Nat)
    (cb rb : CommentBody) (ub : CommentUpdateBody) (bb : BlogBody)
    (ubb : BlogUpdateBody)
    (c r₁ r₂ r₄ : Comment) (b r₃ r₅ : Blog)
    (hc : findComment dbc cid = some c) (hb : findBlog dbb bid = some b)
    (hua : ub.author = none) (hba : ubb.author = none)
    (h₁ : addComment blogs dbc principalId blogId cb newId now = (.ok r₁, dbc₂))
    (h₂ : replyToComment dbc principalId cid rb newId now = (.ok r₂, dbc₃))
    (h₃ : (createBlog dbb principalId bb newId now).1 = .ok r₃)
    (h₄ : updateComment dbc p cid ub = (.ok r₄, dbc₄))
    (h₅ : updateBlog dbb p bid ubb = (.ok r₅, dbb')) :
    r₁.author = principalId ∧ r₂.author = principalId ∧
    r₃.author = principalId ∧ r₄.author = c.author ∧ r₅.author = b.author := by
  refine ⟨?_, ?_, ?_, ?_, ?_⟩
  · unfold addComment at h₁
    cases hf : findBlog blogs blogId with
    | none => rw [hf] at h₁; exact absurd (congrArg Prod.fst h₁) (by simp)
    | some bl =>
        rw [hf] at h₁
        obtain ⟨h1, _⟩ := Prod.mk.injEq .. ▸ h₁
        cases h1
        rfl
  · unfold replyToComment at h₂
    rw [hc] at h₂
    obtain ⟨h1, _⟩ := Prod.mk.injEq .. ▸ h₂
    cases h1
    rfl
  · unfold createBlog at h₃
    dsimp only at h₃
    injection h₃ with h1
    subst h1
    unfold blogFromBody
    split <;> rfl
  · unfold updateComment at h₄
    rw [hc] at h₄
    dsimp only at h₄
    by_cases hco : checkOwnership p c.author = true
    · rw [if_pos hco] at h₄
      obtain ⟨h1, _⟩ := Prod.mk.injEq .. ▸ h₄
      cases h1
      simp [applyCommentUpdate, hua]
    · rw [if_neg hco] at h₄
      exact absurd (congrArg Prod.fst h₄) (by simp)
  · unfold updateBlog at h₅
    rw [hb] at h₅
    dsimp only at h₅
    by_cases hco : checkOwnership p b.author = true
    · rw [if_pos hco] at h₅
      obtain ⟨h1, _⟩ := Prod.mk.injEq .. ▸ h₅
      cases h1
      unfold applyBlogUpdate
      split <;> simp [hba]
    · rw [if_neg hco] at h₅
      exact absurd (congrArg Prod.fst h₅) (by simp)

/-- Witness for `author_set_and_preserved`: owner 1 runs all five
operations; the creation bodies try to claim author 42 and are
overridden, the update bodies carry valid content (so they pass the
validators) but no author field, and the stored author is preserved. -/
theorem author_set_and_preserved_witness :
    (updateComment
        [{ id := 1, content := "hi", author := 1, blog := 1, parentComment := none,
           isEdited := false, editedAt := none, likes := [], isActive := true,
           createdAt := 0 }]
        { id := 1, name := "a", email := "a@x", password := "h", role := "user" }
        1 { content := some ("hi2") } =
      (.ok { id := 1, content := "hi2", author := 1, blog := 1, parentComment := none,
             isEdited := false, editedAt := none, likes := [], isActive := true,
             createdAt := 0 },
       [{ id := 1, content := "hi2", author := 1, blog := 1, parentComment := none,
          isEdited := false, editedAt := none, likes := [], isActive := true,
          createdAt := 0 }])) ∧
    (({ id := 9, content := "c2", author := 1, blog := 1, parentComment := none,
        isEdited := false, editedAt := none, likes := [], isActive := true,
        createdAt := 4 } : Comment).author = 1 ∧
     ({ id := 9, content := "r2", author := 1, blog := 1, parentComment := some 1,
        isEdited := false, editedAt := none, likes := [], isActive := true,
        createdAt := 4 } : Comment).author = 1 ∧
     ({ id := 9, title := "t2", content := "x", excerpt := "e2", author := 1,
        tags := [], featuredImage := "", status := "published", views := 0,
        likes := [], isPublished := true, createdAt := 4 } : Blog).author = 1 ∧
     ({ id := 1, content := "hi2", author := 1, blog := 1, parentComment := none,
        isEdited := false, editedAt := none, likes := [], isActive := true,
        createdAt := 0 } : Comment).author =
       ({ id := 1, content := "hi", author := 1, blog := 1, parentComment := none,
          isEdited := false, editedAt := none, likes := [], isActive := true,
          createdAt := 0 } : Comment).author ∧
     ({ id := 1, title := "t3", content := "c3", excerpt := "e3", author := 1,
        tags := [], featuredImage := "", status := "published", views := 0,
        likes := [], isPublished := true, createdAt := 0 } : Blog).author =
       ({ id := 1, title := "t", content := "c", excerpt := "e", author := 1,
          tags := [], featuredImage := "", status := "published", views := 0,
          likes := [], isPublished := true, createdAt := 0 } : Blog).author) :=
  ⟨by decide,
   author_set_and_preserved
    [{ id := 1, title := "t", content := "c", excerpt := "e", author := 1,
       tags := [], featuredImage := "", status := "published", views := 0,
       likes := [], isPublished := true, createdAt := 0 }]
    [{ id := 1, title := "t", content := "c", excerpt := "e", author := 1,
       tags := [], featuredImage := "", status := "published", views := 0,
       likes := [], isPublished := true, createdAt := 0 }]
    [{ id := 1, title := "t3", content := "c3", excerpt := "e3", author := 1,
       tags := [], featuredImage := "", status := "published", views := 0,
       likes := [], isPublished := true, createdAt := 0 }]
    [{ id := 1, content := "hi", author := 1, blog := 1, parentComment := none,
       isEdited := false, editedAt := none, likes := [], isActive := true,
       createdAt := 0 }]
    [{ id := 1, content := "hi", author := 1, blog := 1, parentComment := none,
       isEdited := false, editedAt := none, likes := [], isActive := true,
       createdAt := 0 },
     { id := 9, content := "c2", author := 1, blog := 1, parentComment := none,
       isEdited := false, editedAt := none, likes := [], isActive := true,
       createdAt := 4 }]
    [{ id := 1, content := "hi", author := 1, blog := 1, parentComment := none,
       isEdited := false, editedAt := none, likes := [], isActive := true,
       createdAt := 0 },
     { id := 9, content := "r2", author := 1, blog := 1, parentComment := some 1,
       isEdited := false, editedAt := none, likes := [], isActive := true,
       createdAt := 4 }]
    [{ id := 1, content := "hi2", author := 1, blog := 1, parentComment := none,
       isEdited := false, editedAt := none, likes := [], isActive := true,
       createdAt := 0 }]
    { id := 1, name := "a", email := "a@x", password := "h", role := "user" }
    1 1 1 1 9 4
    { content := "c2", author := some 42 }
    { content := "r2", author := some 42 }
    { content := some ("hi2") }
    { title := "t2", content := "x", excerpt := some ("e2"), author := some 42 }
    { title := some ("t3"), content := some ("c3"), excerpt := some ("e3") }
    { id := 1, content := "hi", author := 1, blog := 1, parentComment := none,
      isEdited := false, editedAt := none, likes := [], isActive := true,
      createdAt := 0 }
    { id := 9, content := "c2", author := 1, blog := 1, parentComment := none,
      isEdited := false, editedAt := none, likes := [], isActive := true,
      createdAt := 4 }
    { id := 9, content := "r2", author := 1, blog := 1, parentComment := some 1,
      isEdited := false, editedAt := none, likes := [], isActive := true,
      createdAt := 4 }
    { id := 1, content := "hi2", author := 1, blog := 1, parentComment := none,
      isEdited := false, editedAt := none, likes := [], isActive := true,
      createdAt := 0 }
    { id := 1, title := "t", content := "c", excerpt := "e", author := 1,
      tags := [], featuredImage := "", status := "published", views := 0,
      likes := [], isPublished := true, createdAt := 0 }
    { id := 9, title := "t2", content := "x", excerpt := "e2", author := 1,
      tags := [], featuredImage := "", status := "published", views := 0,
      likes := [], isPublished := true, createdAt := 4 }
    { id := 1, title := "t3", content := "c3", excerpt := "e3", author := 1,
      tags := [], featuredImage := "", status := "published", views := 0,
      likes := [], isPublished := true, createdAt := 0 }
    (by decide) (by decide) (by decide) (by decide)
    (by decide) (by decide) (by decide) (by decide) (by decide)⟩

/-- C4: evaluation at the failing input.  Updating the content of comment
1 through PUT /api/comments/:id goes through `findByIdAndUpdate`, which
does not run the pre-save hook, so the stored comment keeps
`isEdited = false` and `editedAt` unset even though its content changed —
while the save-path hook (`commentPreSave`), run on a modified non-new
document, would have stamped both. -/
theorem update_endpoint_skips_edit_stamp :
    (updateComment
        [{ id := 1, content := "old", author := 1, blog := 1, parentComment := none,
           isEdited := false, editedAt := none, likes := [], isActive := true,
           createdAt := 0 }]
        { id := 1, name := "a", email := "a@x", password := "h", role := "user" }
        1 { content := some ("new") }).1 =
      .ok { id := 1, content := "new", author := 1, blog := 1, parentComment := none,
            isEdited := false, editedAt := none, likes := [], isActive := true,
            createdAt := 0 } ∧
    (commentPreSave
        { id := 1, content := "new", author := 1, blog := 1, parentComment := none,
          isEdited := false, editedAt := none, likes := [], isActive := true,
          createdAt := 0 } true false 5).isEdited = true ∧
    (commentPreSave
        { id := 1, content := "new", author := 1, blog := 1, parentComment := none,
          isEdited := false, editedAt := none, likes := [], isActive := true,
          createdAt := 0 } true false 5).editedAt = some 5 := by
  decide

/-- Membership in a pagination window implies membership in the
underlying list. -/
theorem mem_paginate {α : Type} {x : α} {page limit : Nat} {l : List α}
    (h : x ∈ paginate page limit l) : x ∈ l :=
  List.mem_of_mem_drop (List.mem_of_mem_take h)

/-- C1 counterexample: a soft-deleted comment (`isActive = false`) on
blog 3 appears in the admin all-comments listing (whose `Comment.find()`
has no filter) and is counted by the blog's `commentCount` virtual (which
filters only on the `blog` field). -/
theorem inactive_in_admin_and_count_cex :
    (({ id := 1, content := "x", author := 1, blog := 3, parentComment := none,
        isEdited := false, editedAt := none, likes := [], isActive := false,
        createdAt := 0 } : Comment) ∈
      listAdminAll
        [{ id := 1, content := "x", author := 1, blog := 3, parentComment := none,
           isEdited := false, editedAt := none, likes := [], isActive := false,
           createdAt := 0 }] 1 10) ∧
    commentCount
        [{ id := 1, content := "x", author := 1, blog := 3, parentComment := none,
           isEdited := false, editedAt := none, likes := [], isActive := false,
           createdAt := 0 }] 3 = 1 := by
  refine ⟨?_, by decide⟩
  show _ ∈ paginate 1 10 (sortByCreatedDesc _)
  unfold paginate
  rw [show (1 - 1) * 10 = 0 from rfl, List.drop_zero,
    List.take_of_length_le (by rw [sortByCreatedDesc, List.length_mergeSort]; decide)]
  simp [sortByCreatedDesc, List.mem_mergeSort]

/-- C1 (amended): a soft-deleted comment is excluded from the top-level
listing and its total, the reply listing and its total, and the per-user
listing and its total (all of which filter on `isActive: true`); but the
admin all-comments listing and total and the blog's derived
`commentCount` do include it. -/
theorem soft_delete_filtering (db l₁ l₂ : List Comment) (c : Comment)
    (blogId userId parentId page limit : Nat)
    (hin : c.isActive = false) :
    c ∉ listTopLevel db blogId page limit ∧
    c ∉ listReplies db parentId page limit ∧
    c ∉ listUserComments db userId page limit ∧
    totalTopLevel (l₁ ++ c :: l₂) blogId = totalTopLevel (l₁ ++ l₂) blogId ∧
    totalReplies (l₁ ++ c :: l₂) parentId = totalReplies (l₁ ++ l₂) parentId ∧
    totalUserComments (l₁ ++ c :: l₂) userId = totalUserComments (l₁ ++ l₂) userId ∧
    c ∈ listAdminAll (l₁ ++ c :: l₂) 1 ((l₁ ++ c :: l₂).length) ∧
    totalAdminAll (l₁ ++ c :: l₂) = totalAdminAll (l₁ ++ l₂) + 1 ∧
    commentCount (l₁ ++ c :: l₂) c.blog = commentCount (l₁ ++ l₂) c.blog + 1 := by
  refine ⟨?_, ?_, ?_, ?_, ?_, ?_, ?_, ?_, ?_⟩
  · intro hmem
    have h1 : c ∈ db.filter (topLevelPred blogId) := by
      have h0 := mem_paginate hmem
      simpa [sortByCreatedDesc, List.mem_mergeSort] using h0
    have h2 := (List.mem_filter.mp h1).2
    simp [topLevelPred, hin] at h2
  · intro hmem
    have h1 : c ∈ db.filter (repliesPred parentId) := by
      have h0 := mem_paginate hmem
      simpa [sortByCreatedAsc, List.mem_mergeSort] using h0
    have h2 := (List.mem_filter.mp h1).2
    simp [repliesPred, hin] at h2
  · intro hmem
    have h1 : c ∈ db.filter (userCommentsPred userId) := by
      have h0 := mem_paginate hmem
      simpa [sortByCreatedDesc, List.mem_mergeSort] using h0
    have h2 := (List.mem_filter.mp h1).2
    simp [userCommentsPred, hin] at h2
  · unfold totalTopLevel
    rw [List.filter_append, List.filter_append,
      List.filter_cons_of_neg (by simp [topLevelPred, hin])]
  · unfold totalReplies
    rw [List.filter_append, List.filter_append,
      List.filter_cons_of_neg (by simp [repliesPred, hin])]
  · unfold totalUserComments
    rw [List.filter_append, List.filter_append,
      List.filter_cons_of_neg (by simp [userCommentsPred, hin])]
  · show c ∈ paginate 1 ((l₁ ++ c :: l₂).length)
      (sortByCreatedDesc (l₁ ++ c :: l₂))
    unfold paginate
    simp only [Nat.sub_self, Nat.zero_mul, List.drop_zero]
    rw [List.take_of_length_le
      (le_of_eq (by rw [sortByCreatedDesc, List.length_mergeSort]))]
    simp [sortByCreatedDesc, List.mem_mergeSort]
  · simp [totalAdminAll]
    omega
  · unfold commentCount
    rw [List.filter_append, List.filter_append,
      List.filter_cons_of_pos (by simp)]
    simp [List.length_append]
    omega

/-- Witness for `soft_delete_filtering`: one inactive comment on blog 3,
alone in the store. -/
theorem soft_delete_filtering_witness :
    ({ id := 1, content := "x", author := 1, blog := 3, parentComment := none,
       isEdited := false, editedAt := none, likes := [], isActive := false,
       createdAt := 0 } : Comment).isActive = false ∧
    (({ id := 1, content := "x", author := 1, blog := 3, parentComment := none,
        isEdited := false, editedAt := none, likes := [], isActive := false,
        createdAt := 0 } : Comment) ∉
      listTopLevel
        [{ id := 1, content := "x", author := 1, blog := 3, parentComment := none,
           isEdited := false, editedAt := none, likes := [], isActive := false,
           createdAt := 0 }] 3 1 10) :=
  ⟨by decide,
   (soft_delete_filtering
      [{ id := 1, content := "x", author := 1, blog := 3, parentComment := none,
         isEdited := false, editedAt := none, likes := [], isActive := false,
         createdAt := 0 }]
      [] []
      { id := 1, content := "x", author := 1, blog := 3, parentComment := none,
        isEdited := false, editedAt := none, likes := [], isActive := false,
        createdAt := 0 }
      3 2 2 1 10 (by decide)).1⟩

/-- Counting lemma for the populate-count `likeCount` virtual: with
unique user ids, a duplicate-free like list every entry of which refers
to an existing user is counted exactly. -/
theorem likeCountVirtual_card (users : List User) (likes : List Nat)
    (hN : (users.map User.id).Nodup) (hl : likes.Nodup)
    (hsub : ∀ x ∈ likes, x ∈ users.map User.id) :
    likeCountVirtual users likes = likes.length := by
  unfold likeCountVirtual
  have h1 : ((users.map User.id).filter (fun i => likes.contains i)).length
      = (users.filter (fun u => likes.contains u.id)).length := by
    rw [List.filter_map]
    simp [Function.comp_def]
  rw [← h1]
  have hNf : ((users.map User.id).filter (fun i => likes.contains i)).Nodup :=
    hN.filter _
  have h2 : ((users.map User.id).filter (fun i => likes.contains i)).toFinset
      = (users.map User.id).toFinset ∩ likes.toFinset := by
    ext x
    simp [List.mem_filter]
  have h3 : likes.toFinset ⊆ (users.map User.id).toFinset := by
    intro x hx
    rw [List.mem_toFinset] at hx ⊢
    exact hsub x hx
  calc ((users.map User.id).filter (fun i => likes.contains i)).length
      = ((users.map User.id).filter (fun i => likes.contains i)).toFinset.card :=
        (List.toFinset_card_of_nodup hNf).symm
    _ = ((users.map User.id).toFinset ∩ likes.toFinset).card := by rw [h2]
    _ = likes.toFinset.card := by rw [Finset.inter_eq_right.mpr h3]
    _ = likes.length := List.toFinset_card_of_nodup hl

/-- C9 counterexample: blog 1 has `likes = [5]` but no user 5 exists any
more; the likeCount virtual reports 0 while the likes set has
cardinality 1. -/
theorem likeCount_dangling_cex :
    blogLikeCount []
      { id := 1, title := "t", content := "c", excerpt := "e", author := 1,
        tags := [], featuredImage := "", status := "published", views := 0,
        likes := [5], isPublished := true, createdAt := 0 } = 0 ∧
    ({ id := 1, title := "t", content := "c", excerpt := "e", author := 1,
       tags := [], featuredImage := "", status := "published", views := 0,
       likes := [5], isPublished := true, createdAt := 0 } : Blog).likes.length
      = 1 := by
  decide

/-- C9 (amended): the `likeCount` virtuals of Blog and Comment count the
existing User documents whose id occurs in the entity's likes list, so
`likeCount = |likes|` holds whenever every id of the (duplicate-free)
likes list still refers to an existing user; an id whose user was deleted
is not counted. -/
theorem likeCount_eq_card_amended (users : List User) (b : Blog) (c : Comment)
    (hN : (users.map User.id).Nodup)
    (hbl : b.likes.Nodup) (hbs : ∀ x ∈ b.likes, x ∈ users.map User.id)
    (hcl : c.likes.Nodup) (hcs : ∀ x ∈ c.likes, x ∈ users.map User.id) :
    blogLikeCount users b = b.likes.length ∧
    commentLikeCount users c = c.likes.length :=
  ⟨likeCountVirtual_card users b.likes hN hbl hbs,
   likeCountVirtual_card users c.likes hN hcl hcs⟩

/-- Witness for `likeCount_eq_card_amended`: one user (id 5) liking both
blog 1 and comment 1. -/
theorem likeCount_eq_card_amended_witness :
    (([{ id := 5, name := "u", email := "u@x", password := "h",
         role := "user" }] : List User).map User.id).Nodup ∧
    blogLikeCount
        [{ id := 5, name := "u", email := "u@x", password := "h",
           role := "user" }]
        { id := 1, title := "t", content := "c", excerpt := "e", author := 1,
          tags := [], featuredImage := "", status := "published", views := 0,
          likes := [5], isPublished := true, createdAt := 0 } =
      ({ id := 1, title := "t", content := "c", excerpt := "e", author := 1,
         tags := [], featuredImage := "", status := "published", views := 0,
         likes := [5], isPublished := true, createdAt := 0 } : Blog).likes.length :=
  ⟨by decide,
   (likeCount_eq_card_amended
      [{ id := 5, name := "u", email := "u@x", password := "h",
         role := "user" }]
      { id := 1, title := "t", content := "c", excerpt := "e", author := 1,
        tags := [], featuredImage := "", status := "published", views := 0,
        likes := [5], isPublished := true, createdAt := 0 }
      { id := 1, content := "x", author := 1, blog := 1, parentComment := none,
        isEdited := false, editedAt := none, likes := [5], isActive := true,
        createdAt := 0 }
      (by decide) (by decide) (by decide) (by decide) (by decide)).1⟩

end BlogBackend
